import Mathlib

/-
Shallow embedding of src/app.py (a Streamlit chat application).

Streamlit execution model: every user interaction (role change, button
click, text entry) re-runs the whole script from the top, with
st.session_state persisted across runs.  One call of `run_main` below
models one such script run of main(): its inputs are the environment
variable, the persisted session state, the current widget values, and the
behaviour of the remote generation service during this run; its output is
the displayed errors, the remote calls issued (in order), the new session
state, and whether the run stopped early (st.stop) or crashed (an uncaught
exception).

st.stop() raises StopException, which subclasses Exception.  Inside
configure_gemini every st.stop() happens inside the outer
`try ... except Exception`, so the outer handler catches the
StopException, displays "Configuration error: " (str of a bare
StopException is empty) and calls st.stop() again, which then escapes
configure_gemini and ends the script run.  This is modelled faithfully in
`configure_gemini` below.
-/

/-- The single-quote character as a one-character string (Char 39). -/
def sQuote : String := String.mk [Char.ofNat 39]

/-- Outcome of one remote model.generate_content(prompt) call: a response
whose .text is the carried string, an InvalidArgument error
(google.api_core.exceptions), or any other exception carrying str(e). -/
inductive GenResult where
  | ok : String → GenResult
  | invalidArg : GenResult
  | otherError : String → GenResult
deriving DecidableEq, Repr

/-- One role entry of company_data["roles"]: a dict with the three keys
responsibilities, tools, team_structure (in insertion order). -/
structure RoleInfo where
  responsibilities : String
  tools : String
  team_structure : String
deriving DecidableEq, Repr

/-- The insertion-ordered (key, value) pairs of a role dict, as iterated
by role_info.items() and as serialized by json.dumps. -/
def RoleInfo.pairs (ri : RoleInfo) : List (String × String) :=
  [("responsibilities", ri.responsibilities),
   ("tools", ri.tools),
   ("team_structure", ri.team_structure)]

/-- The nested dict returned by load_company_data(), with dicts modelled
as insertion-ordered association lists. -/
structure CompanyData where
  policies : List (String × String)
  roles : List (String × RoleInfo)
  faqs : List (String × String)
deriving DecidableEq, Repr

/-- company_data["roles"]["software_engineer"]. -/
def se_info : RoleInfo :=
  { responsibilities :=
      "Develop and maintain Meta" ++ sQuote ++ "s products and infrastructure"
    tools := "Internal development tools, Git, Meta" ++ sQuote ++ "s testing frameworks"
    team_structure := "Agile teams with daily standups and bi-weekly sprints" }

/-- company_data["roles"]["product_manager"]. -/
def pm_info : RoleInfo :=
  { responsibilities := "Drive product strategy and execution"
    tools := "Product analytics tools, roadmap planning software"
    team_structure := "Cross-functional teams with engineers and designers" }

/-- company_data["roles"]["data_scientist"]. -/
def ds_info : RoleInfo :=
  { responsibilities := "Analyze user behavior and product metrics"
    tools := "Internal analytics platforms, Python, SQL"
    team_structure := "Embedded in product teams with regular stakeholder reviews" }

/-- load_company_data() from src/app.py, verbatim. -/
def load_company_data : CompanyData :=
  { policies :=
      [("work_hours",
        "Meta operates on flexible work hours with core collaboration hours from 10 AM to 4 PM local time."),
       ("remote_work",
        "Meta offers hybrid work options with a minimum of 3 days in office per week."),
       ("code_of_conduct",
        "Meta employees must adhere to our community standards and ethical guidelines."),
       ("security",
        "All employees must use two-factor authentication and follow security protocols."),
       ("benefits",
        "Comprehensive health insurance, 401(k) matching, RSUs, and wellness programs.")]
    roles :=
      [("software_engineer", se_info),
       ("product_manager", pm_info),
       ("data_scientist", ds_info)]
    faqs :=
      [("first_day",
        "You" ++ sQuote ++ "ll attend orientation, set up your workstation, and meet your team."),
       ("it_support",
        "Contact IT Help Desk through workplace portal or email it@meta.com"),
       ("parking",
        "Free parking available at all Meta offices with registered vehicle"),
       ("dress_code",
        "Casual dress code - be comfortable and professional"),
       ("lunch",
        "Free meals provided at all Meta cafeterias")] }

/-- The three options of the sidebar selectbox (a closed set: the widget
cannot return anything else). -/
inductive Role where
  | software_engineer
  | product_manager
  | data_scientist
deriving DecidableEq, Repr

/-- The string value the selectbox returns for each option. -/
def Role.key : Role → String
  | .software_engineer => "software_engineer"
  | .product_manager => "product_manager"
  | .data_scientist => "data_scientist"

/-- The RoleInfo stored in load_company_data under Role.key. -/
def role_info_of : Role → RoleInfo
  | .software_engineer => se_info
  | .product_manager => pm_info
  | .data_scientist => ds_info

/-- json.dumps escaping of one character (ensure_ascii default; the
characters occurring in this program are ASCII and only the listed ones
need escapes). -/
def jsonEscapeChar (c : Char) : String :=
  if c = '"' then "\\\""
  else if c = '\\' then "\\\\"
  else if c = '\n' then "\\n"
  else if c = '\t' then "\\t"
  else if c = '\r' then "\\r"
  else String.mk [c]

/-- json.dumps escaping of a string body. -/
def jsonEscape (s : String) : String :=
  String.join (s.data.map jsonEscapeChar)

/-- json.dumps rendering of a string value, quotes included. -/
def jsonStr (s : String) : String :=
  "\"" ++ jsonEscape s ++ "\""

/-- One `"key": "value"` field with json.dumps default separators. -/
def jsonField (k v : String) : String :=
  jsonStr k ++ ": " ++ jsonStr v

/-- json.dumps rendering of a flat string-valued dict, insertion order. -/
def jsonObjOfPairs (ps : List (String × String)) : String :=
  "\x7b" ++ String.intercalate ", " (ps.map (fun p => jsonField p.1 p.2)) ++ "\x7d"

/-- json.dumps({"policies": ..., "role_info": ..., "faqs": ...}) as built
in main() before each generate call. -/
def contextDump (cd : CompanyData) (ri : RoleInfo) : String :=
  "\x7b" ++ jsonStr "policies" ++ ": " ++ jsonObjOfPairs cd.policies ++ ", "
    ++ jsonStr "role_info" ++ ": " ++ jsonObjOfPairs ri.pairs ++ ", "
    ++ jsonStr "faqs" ++ ": " ++ jsonObjOfPairs cd.faqs ++ "\x7d"

/-- The fixed text of the prompt f-string before {context}, exact bytes of
src/app.py lines 75-81 (trailing spaces included). -/
def promptHead : String :=
  "\n        You are Meta" ++ sQuote
    ++ "s AI onboarding assistant. Using the following company information, \n        provide a helpful and friendly response to the query. Stay strictly within the \n        provided context and if information isn"
    ++ sQuote ++ "t available, kindly say so.\n\n        Context:\n        "

/-- The fixed text between {context} and {query}. -/
def promptMid : String := "\n\n        Query: "

/-- The fixed text after {query}. -/
def promptTail : String :=
  "\n\n        Provide a conversational, helpful response focusing only on relevant information.\n        "

/-- The prompt f-string of generate_response (the PromptBuilder). -/
def build_prompt (query context : String) : String :=
  promptHead ++ context ++ promptMid ++ query ++ promptTail

/-- st.error text at src/app.py line 16. -/
def msg_no_key : String :=
  "❌ GEMINI_API_KEY not found in environment variables. Please check your .env file."

/-- st.error text at src/app.py line 28. -/
def msg_invalid_key : String :=
  "❌ Invalid API key. Please check your GEMINI_API_KEY in the .env file."

/-- st.error text at src/app.py line 31 with str(e) appended. -/
def msg_init_error (e : String) : String :=
  "❌ Error initializing Gemini model: " ++ e

/-- st.error text at src/app.py line 34; str(e) of the caught bare
StopException is the empty string. -/
def msg_config_error : String := "❌ Configuration error: "

/-- st.error text at src/app.py line 109. -/
def msg_setup_key : String :=
  "❌ Please set up your GEMINI_API_KEY in the .env file"

/-- st.error text at src/app.py line 91. -/
def msg_api_error : String :=
  "❌ API Error: Invalid API key or request. Please check your configuration."

/-- st.error text at src/app.py line 94 with str(e) appended. -/
def msg_gen_error (e : String) : String :=
  "❌ Error generating response: " ++ e

/-- What configure_gemini() did during one script run. -/
structure ConfigResult where
  modelOk : Bool
  errors : List String
  calls : List String
deriving DecidableEq, Repr

/-- configure_gemini() from src/app.py.  `apiKey` is os.getenv result
(none when unset); `remote` is the behaviour of
model.generate_content during this run.  Python truthiness: None and ""
both fail the `if not api_key` check.  Every st.stop() inside the outer
try is a StopException caught by `except Exception` at line 33, which
displays msg_config_error and stops for good. -/
def configure_gemini (apiKey : Option String) (remote : String → GenResult) :
    ConfigResult :=
  match apiKey with
  | none => ⟨false, [msg_no_key, msg_config_error], []⟩
  | some k =>
    if k = "" then ⟨false, [msg_no_key, msg_config_error], []⟩
    else
      match remote "Test" with
      | .ok _ => ⟨true, [], ["Test"]⟩
      | .invalidArg => ⟨false, [msg_invalid_key, msg_config_error], ["Test"]⟩
      | .otherError e => ⟨false, [msg_init_error e, msg_config_error], ["Test"]⟩

/-- What generate_response() did: the response returned (None on any
caught exception), the st.error messages displayed, and the prompt it
sent to the remote service. -/
structure GenOut where
  response : Option String
  errors : List String
  call : String
deriving DecidableEq, Repr

/-- generate_response(model, query, context) from src/app.py. -/
def generate_response (remote : String → GenResult) (query context : String) :
    GenOut :=
  match remote (build_prompt query context) with
  | .ok t => ⟨some t, [], build_prompt query context⟩
  | .invalidArg => ⟨none, [msg_api_error], build_prompt query context⟩
  | .otherError e => ⟨none, [msg_gen_error e], build_prompt query context⟩

/-- Inputs of one script run: environment, remote behaviour, persisted
session state (none when chat_history was never initialised), and the
current widget values. -/
structure ScriptInput where
  apiKey : Option String
  remote : String → GenResult
  chatHistory : Option (List (String × String))
  role : Role
  userInput : String
  sendClicked : Bool

/-- Observable outcome of one script run. -/
structure ScriptOutput where
  halted : Bool
  crashed : Bool
  errors : List String
  chatHistory : Option (List (String × String))
  remoteCalls : List String
  roleInfoShown : Option RoleInfo
deriving DecidableEq, Repr

/-- Python truthiness of the api key: absent or empty is falsy. -/
def falsyKey : Option String → Bool
  | none => true
  | some k => k = ""

/-- One run of main() from src/app.py, top to bottom.  Order of effects:
the api-key guard (lines 107-116, st.stop before session-state init),
chat_history initialisation (119-120), configure_gemini (123, one remote
validation call per run), the sidebar role display (136-140), and the
Send handler (145-160) which only fires when the button was clicked and
the input is truthy (non-empty); an obtained response is appended to the
history only when itself truthy (non-empty). -/
def run_main (inp : ScriptInput) : ScriptOutput :=
  if falsyKey inp.apiKey then
    ⟨true, false, [msg_setup_key], inp.chatHistory, [], none⟩
  else
    let history := inp.chatHistory.getD []
    let cfg := configure_gemini inp.apiKey inp.remote
    if cfg.modelOk then
      match List.lookup inp.role.key load_company_data.roles with
      | none =>
        -- company_data["roles"][role] would raise KeyError, uncaught
        ⟨false, true, cfg.errors, some history, cfg.calls, none⟩
      | some ri =>
        if inp.sendClicked then
          if inp.userInput = "" then
            ⟨false, false, cfg.errors, some history, cfg.calls, some ri⟩
          else
            let g := generate_response inp.remote inp.userInput
                       (contextDump load_company_data ri)
            match g.response with
            | some t =>
              if t = "" then
                ⟨false, false, cfg.errors ++ g.errors, some history,
                  cfg.calls ++ [g.call], some ri⟩
              else
                ⟨false, false, cfg.errors ++ g.errors,
                  some (history ++ [("user", inp.userInput), ("assistant", t)]),
                  cfg.calls ++ [g.call], some ri⟩
            | none =>
              ⟨false, false, cfg.errors ++ g.errors, some history,
                cfg.calls ++ [g.call], some ri⟩
        else
          ⟨false, false, cfg.errors, some history, cfg.calls, some ri⟩
    else
      ⟨true, false, cfg.errors, some history, cfg.calls, none⟩

/-- Substring containment, stated on the underlying character lists. -/
def StrContains (s t : String) : Prop := t.data <:+: s.data

instance (s t : String) : Decidable (StrContains s t) :=
  inferInstanceAs (Decidable (t.data <:+: s.data))

set_option maxRecDepth 100000

theorem strContains_refl (s : String) : StrContains s s :=
  ⟨[], [], by simp⟩

theorem strContains_append_left (x : String) {s t : String}
    (h : StrContains s t) : StrContains (x ++ s) t := by
  obtain ⟨u, v, huv⟩ := h
  exact ⟨x.data ++ u, v, by simp [String.data_append, ← huv]⟩

theorem strContains_append_right (y : String) {s t : String}
    (h : StrContains s t) : StrContains (s ++ y) t := by
  obtain ⟨u, v, huv⟩ := h
  exact ⟨u, v ++ y.data, by simp [String.data_append, ← huv]⟩

theorem lookup_role_key (r : Role) :
    List.lookup r.key load_company_data.roles = some (role_info_of r) := by
  cases r <;> rfl

/-- A transcript of consecutive (user, _), (assistant, _) pairs. -/
inductive Paired : List (String × String) → Prop where
  | nil : Paired []
  | pair (q r : String) (rest : List (String × String)) :
      Paired rest → Paired (("user", q) :: ("assistant", r) :: rest)

theorem Paired.append_pair {h : List (String × String)} (hp : Paired h)
    (q r : String) : Paired (h ++ [("user", q), ("assistant", r)]) := by
  induction hp with
  | nil => exact Paired.pair q r [] Paired.nil
  | pair q0 r0 rest _ ih => exact Paired.pair q0 r0 _ ih

theorem configure_gemini_calls (k : Option String) (remote : String → GenResult) :
    (configure_gemini k remote).calls = [] ∨
      (configure_gemini k remote).calls = ["Test"] := by
  unfold configure_gemini
  cases k with
  | none => exact Or.inl rfl
  | some s =>
    by_cases h : s = ""
    · simp [h]
    · simp only [if_neg h]
      cases remote "Test" <;> simp

theorem configure_gemini_ok (k : String) (remote : String → GenResult)
    (hk : k ≠ "") {s : String} (hr : remote "Test" = GenResult.ok s) :
    configure_gemini (some k) remote = ⟨true, [], ["Test"]⟩ := by
  unfold configure_gemini
  simp [hk, hr]

theorem configure_gemini_modelOk (k : Option String) (remote : String → GenResult)
    (h : (configure_gemini k remote).modelOk = true) :
    configure_gemini k remote = ⟨true, [], ["Test"]⟩ := by
  unfold configure_gemini at h ⊢
  cases k with
  | none => simp at h
  | some s =>
    by_cases hs : s = ""
    · simp [hs] at h
    · simp only [if_neg hs] at h ⊢
      cases hr : remote "Test" <;> simp_all

/-- C5: PromptBuilder.build (the prompt f-string of generate_response) is
deterministic, and its output contains the query and the serialized
context as substrings. -/
theorem claim_C5 (q c : String) :
    build_prompt q c = build_prompt q c ∧
    StrContains (build_prompt q c) q ∧ StrContains (build_prompt q c) c := by
  refine ⟨rfl, ?_, ?_⟩
  · unfold build_prompt
    exact strContains_append_right _ (strContains_append_left _ (strContains_refl q))
  · unfold build_prompt
    exact strContains_append_right _ (strContains_append_right _
      (strContains_append_right _ (strContains_append_left _ (strContains_refl c))))

/-- C6: with a missing or empty credential, the run halts at the startup
guard of main() (lines 107-116): no remote call is made, the session
state is untouched, and only the setup message is shown, so no
interaction can reach GenerationClient.generate in that run. -/
theorem claim_C6 (inp : ScriptInput)
    (h : inp.apiKey = none ∨ inp.apiKey = some "") :
    (run_main inp).halted = true ∧ (run_main inp).remoteCalls = [] ∧
    (run_main inp).chatHistory = inp.chatHistory ∧
    (run_main inp).errors = [msg_setup_key] := by
  have hf : falsyKey inp.apiKey = true := by
    rcases h with h | h <;> simp [falsyKey, h]
  simp [run_main, hf]

def inp_c6 : ScriptInput :=
  { apiKey := none
    remote := fun _ => GenResult.ok "pong"
    chatHistory := some [("user", "a"), ("assistant", "b")]
    role := Role.software_engineer
    userInput := "q"
    sendClicked := true }

/-- C6 witness: concrete run with the credential variable absent. -/
theorem claim_C6_witness :
    (run_main inp_c6).halted = true ∧ (run_main inp_c6).remoteCalls = [] ∧
    (run_main inp_c6).chatHistory = inp_c6.chatHistory ∧
    (run_main inp_c6).errors = [msg_setup_key] :=
  claim_C6 inp_c6 (Or.inl rfl)

def inp_c1 : ScriptInput :=
  { apiKey := some "test-key"
    remote := fun _ => GenResult.ok "pong"
    chatHistory := some []
    role := Role.product_manager
    userInput := ""
    sendClicked := false }

/-- C1 counterexample: a pure role-change rerun (Send not clicked) issues
one remote call — the validation request made inside configure_gemini,
which main() re-runs on every interaction — not zero. -/
theorem claim_C1_counterexample :
    inp_c1.sendClicked = false ∧ (run_main inp_c1).remoteCalls = ["Test"] :=
  ⟨rfl, rfl⟩

/-- C1 (amended): a rerun with the Send button not clicked (e.g. a role
change while Idle) never calls generate; the only remote call it can
issue is the single construction-time validation call, which is re-issued
on every script rerun rather than once per process. -/
theorem claim_C1 (inp : ScriptInput) (h : inp.sendClicked = false) :
    (run_main inp).remoteCalls.length ≤ 1 ∧
    ∀ p ∈ (run_main inp).remoteCalls, p = "Test" := by
  cases hfk : falsyKey inp.apiKey with
  | true => simp [run_main, hfk]
  | false =>
    cases hm : (configure_gemini inp.apiKey inp.remote).modelOk with
    | true =>
      have hcfg := configure_gemini_modelOk _ _ hm
      simp [run_main, hfk, hcfg, lookup_role_key, h]
    | false =>
      rcases configure_gemini_calls inp.apiKey inp.remote with hc | hc <;>
        simp [run_main, hfk, hm, hc]

/-- C1 witness: the amended statement at a concrete role-change rerun. -/
theorem claim_C1_witness :
    (run_main inp_c1).remoteCalls.length ≤ 1 ∧
    ∀ p ∈ (run_main inp_c1).remoteCalls, p = "Test" :=
  claim_C1 inp_c1 rfl

/-- Reduction of one run of main() on the submit path: present non-empty
key, validation call succeeds, Send clicked, input non-empty. -/
theorem run_main_send (inp : ScriptInput) (k s : String)
    (hk : inp.apiKey = some k) (hk2 : k ≠ "")
    (hTest : inp.remote "Test" = GenResult.ok s)
    (hSend : inp.sendClicked = true) (hQ : inp.userInput ≠ "") :
    run_main inp =
      match inp.remote (build_prompt inp.userInput
          (contextDump load_company_data (role_info_of inp.role))) with
      | GenResult.ok t =>
        if t = "" then
          ⟨false, false, [], some (inp.chatHistory.getD []),
            ["Test", build_prompt inp.userInput
              (contextDump load_company_data (role_info_of inp.role))],
            some (role_info_of inp.role)⟩
        else
          ⟨false, false, [],
            some (inp.chatHistory.getD []
              ++ [("user", inp.userInput), ("assistant", t)]),
            ["Test", build_prompt inp.userInput
              (contextDump load_company_data (role_info_of inp.role))],
            some (role_info_of inp.role)⟩
      | GenResult.invalidArg =>
        ⟨false, false, [msg_api_error], some (inp.chatHistory.getD []),
          ["Test", build_prompt inp.userInput
            (contextDump load_company_data (role_info_of inp.role))],
          some (role_info_of inp.role)⟩
      | GenResult.otherError e =>
        ⟨false, false, [msg_gen_error e], some (inp.chatHistory.getD []),
          ["Test", build_prompt inp.userInput
            (contextDump load_company_data (role_info_of inp.role))],
          some (role_info_of inp.role)⟩ := by
  have hf : falsyKey inp.apiKey = false := by simp [falsyKey, hk, hk2]
  have hcfg : configure_gemini inp.apiKey inp.remote = ⟨true, [], ["Test"]⟩ := by
    rw [hk]
    exact configure_gemini_ok k inp.remote hk2 hTest
  simp only [run_main, hf, hcfg, lookup_role_key, hSend, generate_response,
    Bool.false_eq_true, if_false, if_true]
  cases hgen : inp.remote (build_prompt inp.userInput
      (contextDump load_company_data (role_info_of inp.role))) with
  | ok t => simp [hgen, hQ]
  | invalidArg => simp [hgen, hQ]
  | otherError e => simp [hgen, hQ]

/-- C2 (amended): for every non-empty query, when generate returns a
non-empty text t the run appends exactly (user, query) then
(assistant, t) to the session transcript and nothing else.  (When
generate succeeds with the empty text, the `if response:` truthiness
check appends nothing; see the counterexample.) -/
theorem claim_C2 (inp : ScriptInput) (k s t : String)
    (hk : inp.apiKey = some k) (hk2 : k ≠ "")
    (hTest : inp.remote "Test" = GenResult.ok s)
    (hSend : inp.sendClicked = true) (hQ : inp.userInput ≠ "")
    (hGen : inp.remote (build_prompt inp.userInput
      (contextDump load_company_data (role_info_of inp.role))) = GenResult.ok t)
    (ht : t ≠ "") :
    (run_main inp).chatHistory =
      some (inp.chatHistory.getD []
        ++ [("user", inp.userInput), ("assistant", t)]) := by
  rw [run_main_send inp k s hk hk2 hTest hSend hQ]
  simp [hGen, ht]

def inp_c2x : ScriptInput :=
  { apiKey := some "test-key"
    remote := fun p => if p = "Test" then GenResult.ok "pong" else GenResult.ok ""
    chatHistory := some []
    role := Role.software_engineer
    userInput := "hi"
    sendClicked := true }

/-- C2 counterexample: generate returns the text "" (a success), yet the
run appends nothing — `if response:` treats "" as falsy — so the claim as
stated fails at T = "". -/
theorem claim_C2_counterexample :
    inp_c2x.userInput = "hi" ∧
    inp_c2x.remote (build_prompt inp_c2x.userInput
      (contextDump load_company_data (role_info_of inp_c2x.role)))
      = GenResult.ok "" ∧
    inp_c2x.chatHistory = some [] ∧
    (run_main inp_c2x).chatHistory = some [] :=
  ⟨rfl, rfl, rfl, rfl⟩

def inp_c2w : ScriptInput :=
  { apiKey := some "test-key"
    remote := fun p => if p = "Test" then GenResult.ok "pong" else GenResult.ok "Sure."
    chatHistory := some [("user", "a"), ("assistant", "b")]
    role := Role.software_engineer
    userInput := "hi"
    sendClicked := true }

/-- C2 witness: the amended statement at a concrete successful submit. -/
theorem claim_C2_witness :
    (run_main inp_c2w).chatHistory =
      some [("user", "a"), ("assistant", "b"), ("user", "hi"), ("assistant", "Sure.")] :=
  claim_C2 inp_c2w "test-key" "pong" "Sure." rfl (by decide) rfl rfl (by decide)
    rfl (by decide)

/-- C3: when generate fails with any classification, the transcript is
left exactly unchanged, an error message is displayed, and the run ends
normally (nothing propagates uncaught, no early stop). -/
theorem claim_C3 (inp : ScriptInput) (k s : String)
    (hk : inp.apiKey = some k) (hk2 : k ≠ "")
    (hTest : inp.remote "Test" = GenResult.ok s)
    (hSend : inp.sendClicked = true) (hQ : inp.userInput ≠ "")
    (hFail : inp.remote (build_prompt inp.userInput
        (contextDump load_company_data (role_info_of inp.role)))
        = GenResult.invalidArg ∨
      ∃ e, inp.remote (build_prompt inp.userInput
        (contextDump load_company_data (role_info_of inp.role)))
        = GenResult.otherError e) :
    (run_main inp).chatHistory = some (inp.chatHistory.getD []) ∧
    (run_main inp).errors ≠ [] ∧
    (run_main inp).crashed = false ∧
    (run_main inp).halted = false := by
  rw [run_main_send inp k s hk hk2 hTest hSend hQ]
  rcases hFail with hf | ⟨e, hf⟩ <;> simp [hf]

def inp_c3 : ScriptInput :=
  { apiKey := some "test-key"
    remote := fun p => if p = "Test" then GenResult.ok "pong" else GenResult.invalidArg
    chatHistory := some [("user", "a"), ("assistant", "b")]
    role := Role.product_manager
    userInput := "hello"
    sendClicked := true }

/-- C3 witness: a concrete submit whose generate call raises
InvalidArgument. -/
theorem claim_C3_witness :
    (run_main inp_c3).chatHistory = some [("user", "a"), ("assistant", "b")] ∧
    (run_main inp_c3).errors ≠ [] ∧
    (run_main inp_c3).crashed = false ∧
    (run_main inp_c3).halted = false :=
  claim_C3 inp_c3 "test-key" "pong" rfl (by decide) rfl rfl (by decide)
    (Or.inl rfl)

/-- C9: a generate call that succeeds but returns the empty string is
treated like a failure at the boundary: nothing is appended and the turn
produces no answer (and, unlike a classified failure, no error either). -/
theorem claim_C9 (inp : ScriptInput) (k s : String)
    (hk : inp.apiKey = some k) (hk2 : k ≠ "")
    (hTest : inp.remote "Test" = GenResult.ok s)
    (hSend : inp.sendClicked = true) (hQ : inp.userInput ≠ "")
    (hGen : inp.remote (build_prompt inp.userInput
      (contextDump load_company_data (role_info_of inp.role))) = GenResult.ok "") :
    (run_main inp).chatHistory = some (inp.chatHistory.getD []) ∧
    (run_main inp).errors = [] ∧
    (run_main inp).crashed = false := by
  rw [run_main_send inp k s hk hk2 hTest hSend hQ]
  simp [hGen]

def inp_c9 : ScriptInput :=
  { apiKey := some "test-key"
    remote := fun p => if p = "Test" then GenResult.ok "pong" else GenResult.ok ""
    chatHistory := some [("user", "a"), ("assistant", "b")]
    role := Role.data_scientist
    userInput := "hi"
    sendClicked := true }

/-- C9 witness: concrete submit whose generate call returns "". -/
theorem claim_C9_witness :
    (run_main inp_c9).chatHistory = some [("user", "a"), ("assistant", "b")] ∧
    (run_main inp_c9).errors = [] ∧
    (run_main inp_c9).crashed = false :=
  claim_C9 inp_c9 "test-key" "pong" rfl (by decide) rfl rfl (by decide) rfl

/-- C4: a submit with the empty query is a no-op at the Send handler: the
transcript is unchanged, generate is never called (every remote call of
the run is the construction-time validation call), and nothing crashes. -/
theorem claim_C4 (inp : ScriptInput) (hSend : inp.sendClicked = true)
    (hQ : inp.userInput = "") :
    ((run_main inp).chatHistory).getD [] = (inp.chatHistory).getD [] ∧
    (∀ p ∈ (run_main inp).remoteCalls, p = "Test") ∧
    (run_main inp).crashed = false := by
  cases hfk : falsyKey inp.apiKey with
  | true => simp [run_main, hfk]
  | false =>
    cases hm : (configure_gemini inp.apiKey inp.remote).modelOk with
    | true =>
      have hcfg := configure_gemini_modelOk _ _ hm
      simp [run_main, hfk, hcfg, lookup_role_key, hSend, hQ]
    | false =>
      rcases configure_gemini_calls inp.apiKey inp.remote with hc | hc <;>
        simp [run_main, hfk, hm, hc]

def inp_c4 : ScriptInput :=
  { apiKey := some "test-key"
    remote := fun _ => GenResult.ok "pong"
    chatHistory := some [("user", "a"), ("assistant", "b")]
    role := Role.data_scientist
    userInput := ""
    sendClicked := true }

/-- C4 witness: concrete Send click with the empty input. -/
theorem claim_C4_witness :
    ((run_main inp_c4).chatHistory).getD [] = (inp_c4.chatHistory).getD [] ∧
    (∀ p ∈ (run_main inp_c4).remoteCalls, p = "Test") ∧
    (run_main inp_c4).crashed = false :=
  claim_C4 inp_c4 rfl rfl

/-- C8: only the exactly-empty input is suppressed: any non-empty query —
in particular one of whitespace only — reaches generate (the run issues
exactly the validation call then the built prompt), and when the response
is a usable (non-empty per the truthiness check) text t, the query is
appended as the (user, ·) entry followed by (assistant, t). -/
theorem claim_C8 (inp : ScriptInput) (k s : String)
    (hk : inp.apiKey = some k) (hk2 : k ≠ "")
    (hTest : inp.remote "Test" = GenResult.ok s)
    (hSend : inp.sendClicked = true) (hQ : inp.userInput ≠ "") :
    (run_main inp).remoteCalls = ["Test", build_prompt inp.userInput
      (contextDump load_company_data (role_info_of inp.role))] ∧
    (∀ t, inp.remote (build_prompt inp.userInput
        (contextDump load_company_data (role_info_of inp.role)))
        = GenResult.ok t → t ≠ "" →
      (run_main inp).chatHistory =
        some (inp.chatHistory.getD []
          ++ [("user", inp.userInput), ("assistant", t)])) := by
  rw [run_main_send inp k s hk hk2 hTest hSend hQ]
  constructor
  · cases hgen : inp.remote (build_prompt inp.userInput
        (contextDump load_company_data (role_info_of inp.role))) with
    | ok t =>
      by_cases ht : t = "" <;> simp [hgen, ht]
    | invalidArg => simp [hgen]
    | otherError e => simp [hgen]
  · intro t hgen ht
    simp [hgen, ht]

def inp_c8 : ScriptInput :=
  { apiKey := some "test-key"
    remote := fun p => if p = "Test" then GenResult.ok "pong" else GenResult.ok "Sure."
    chatHistory := some []
    role := Role.software_engineer
    userInput := " "
    sendClicked := true }

/-- C8 witness: a whitespace-only query " " is sent to generate and, the
response being non-empty, is appended as the (user, " ") entry. -/
theorem claim_C8_witness :
    (run_main inp_c8).remoteCalls = ["Test", build_prompt " "
      (contextDump load_company_data se_info)] ∧
    (run_main inp_c8).chatHistory = some [("user", " "), ("assistant", "Sure.")] := by
  have h := claim_C8 inp_c8 "test-key" "pong" rfl (by decide) rfl rfl (by decide)
  exact ⟨h.1, h.2 "Sure." rfl (by decide)⟩

/-- The serialized data_scientist context contains the tools string. -/
theorem ds_context_contains_tools :
    StrContains (contextDump load_company_data ds_info)
      "Internal analytics platforms, Python, SQL" := by decide

/-- Any prompt built over the data_scientist context contains the tools
string verbatim. -/
theorem ds_prompt_contains_tools (q : String) :
    StrContains (build_prompt q (contextDump load_company_data ds_info))
      "Internal analytics platforms, Python, SQL" := by
  unfold build_prompt
  exact strContains_append_right _ (strContains_append_right _
    (strContains_append_right _
      (strContains_append_left _ ds_context_contains_tools)))

/-- Under a working configuration, the sidebar always shows exactly the
role dict looked up in the knowledge base. -/
theorem run_main_roleInfo (inp : ScriptInput) (k s : String)
    (hk : inp.apiKey = some k) (hk2 : k ≠ "")
    (hTest : inp.remote "Test" = GenResult.ok s) :
    (run_main inp).roleInfoShown = some (role_info_of inp.role) := by
  have hf : falsyKey inp.apiKey = false := by simp [falsyKey, hk, hk2]
  have hcfg : configure_gemini inp.apiKey inp.remote = ⟨true, [], ["Test"]⟩ := by
    rw [hk]
    exact configure_gemini_ok k inp.remote hk2 hTest
  cases hsend : inp.sendClicked with
  | false => simp [run_main, hf, hcfg, lookup_role_key, hsend]
  | true =>
    by_cases hq : inp.userInput = ""
    · simp [run_main, hf, hcfg, lookup_role_key, hsend, hq]
    · rw [run_main_send inp k s hk hk2 hTest hsend hq]
      cases hgen : inp.remote (build_prompt inp.userInput
          (contextDump load_company_data (role_info_of inp.role))) with
      | ok t => by_cases ht : t = "" <;> simp [hgen, ht]
      | invalidArg => simp [hgen]
      | otherError e => simp [hgen]

/-- C7: for every role of the closed set, the sidebar role panel shows
exactly KnowledgeBase.roles[role]; the serialized context embeds that
same role dict's tools field verbatim; and for the data_scientist role
with any non-empty query, the prompt actually sent (the second remote
call of the run) contains "Internal analytics platforms, Python, SQL"
verbatim. -/
theorem claim_C7 (inp : ScriptInput) (k s : String)
    (hk : inp.apiKey = some k) (hk2 : k ≠ "")
    (hTest : inp.remote "Test" = GenResult.ok s) :
    (run_main inp).roleInfoShown
      = List.lookup inp.role.key load_company_data.roles ∧
    StrContains (contextDump load_company_data (role_info_of inp.role))
      (jsonField "tools" (role_info_of inp.role).tools) ∧
    (inp.role = Role.data_scientist → inp.sendClicked = true →
      inp.userInput ≠ "" →
      (run_main inp).remoteCalls.length = 2 ∧
      ∀ p ∈ (run_main inp).remoteCalls.drop 1,
        StrContains p "Internal analytics platforms, Python, SQL") := by
  refine ⟨?_, ?_, ?_⟩
  · rw [lookup_role_key inp.role]
    exact run_main_roleInfo inp k s hk hk2 hTest
  · cases hr : inp.role <;> decide
  · intro hrole hsend hq
    rw [run_main_send inp k s hk hk2 hTest hsend hq]
    cases hgen : inp.remote (build_prompt inp.userInput
        (contextDump load_company_data (role_info_of inp.role))) with
    | ok t =>
      by_cases ht : t = "" <;>
        simp [hgen, ht, hrole] <;>
        exact ds_prompt_contains_tools inp.userInput
    | invalidArg =>
      simp [hgen, hrole]
      exact ds_prompt_contains_tools inp.userInput
    | otherError e =>
      simp [hgen, hrole]
      exact ds_prompt_contains_tools inp.userInput

def inp_c7 : ScriptInput :=
  { apiKey := some "test-key"
    remote := fun p => if p = "Test" then GenResult.ok "pong"
      else GenResult.ok "You use internal analytics platforms, Python and SQL."
    chatHistory := some []
    role := Role.data_scientist
    userInput := "What tools do I use?"
    sendClicked := true }

/-- C7 witness: the spec scenario — role data_scientist, query
"What tools do I use?" — at a concrete run. -/
theorem claim_C7_witness :
    (run_main inp_c7).roleInfoShown
      = List.lookup inp_c7.role.key load_company_data.roles ∧
    (run_main inp_c7).remoteCalls.length = 2 ∧
    ∀ p ∈ (run_main inp_c7).remoteCalls.drop 1,
      StrContains p "Internal analytics platforms, Python, SQL" := by
  have h := claim_C7 inp_c7 "test-key" "pong" rfl (by decide) rfl
  exact ⟨h.1, (h.2.2 rfl rfl (by decide)).1, (h.2.2 rfl rfl (by decide)).2⟩

/-- C10: the transcript invariant — entries only ever appended in
(user, ·), (assistant, ·) pairs: one run of main() maps a paired history
to a paired history, of which the old history is a prefix. -/
theorem claim_C10 (inp : ScriptInput)
    (h : Paired (inp.chatHistory.getD [])) :
    Paired (((run_main inp).chatHistory).getD []) ∧
    (inp.chatHistory.getD []) <+: ((run_main inp).chatHistory).getD [] := by
  cases hfk : falsyKey inp.apiKey with
  | true =>
    have hch : (run_main inp).chatHistory = inp.chatHistory := by
      simp [run_main, hfk]
    rw [hch]
    exact ⟨h, List.prefix_refl _⟩
  | false =>
    cases hm : (configure_gemini inp.apiKey inp.remote).modelOk with
    | false =>
      have hch : (run_main inp).chatHistory = some (inp.chatHistory.getD []) := by
        simp [run_main, hfk, hm]
      rw [hch, Option.getD_some]
      exact ⟨h, List.prefix_refl _⟩
    | true =>
      have hcfg := configure_gemini_modelOk _ _ hm
      cases hsend : inp.sendClicked with
      | false =>
        have hch : (run_main inp).chatHistory = some (inp.chatHistory.getD []) := by
          simp [run_main, hfk, hcfg, lookup_role_key, hsend]
        rw [hch, Option.getD_some]
        exact ⟨h, List.prefix_refl _⟩
      | true =>
        by_cases hq : inp.userInput = ""
        · have hch : (run_main inp).chatHistory = some (inp.chatHistory.getD []) := by
            simp [run_main, hfk, hcfg, lookup_role_key, hsend, hq]
          rw [hch, Option.getD_some]
          exact ⟨h, List.prefix_refl _⟩
        · cases hgen : inp.remote (build_prompt inp.userInput
              (contextDump load_company_data (role_info_of inp.role))) with
          | ok t =>
            by_cases ht : t = ""
            · have hch : (run_main inp).chatHistory
                  = some (inp.chatHistory.getD []) := by
                simp [run_main, hfk, hcfg, lookup_role_key, hsend, hq,
                  generate_response, hgen, ht]
              rw [hch, Option.getD_some]
              exact ⟨h, List.prefix_refl _⟩
            · have hch : (run_main inp).chatHistory
                  = some (inp.chatHistory.getD []
                      ++ [("user", inp.userInput), ("assistant", t)]) := by
                simp [run_main, hfk, hcfg, lookup_role_key, hsend, hq,
                  generate_response, hgen, ht]
              rw [hch, Option.getD_some]
              exact ⟨h.append_pair inp.userInput t, List.prefix_append _ _⟩
          | invalidArg =>
            have hch : (run_main inp).chatHistory
                = some (inp.chatHistory.getD []) := by
              simp [run_main, hfk, hcfg, lookup_role_key, hsend, hq,
                generate_response, hgen]
            rw [hch, Option.getD_some]
            exact ⟨h, List.prefix_refl _⟩
          | otherError e =>
            have hch : (run_main inp).chatHistory
                = some (inp.chatHistory.getD []) := by
              simp [run_main, hfk, hcfg, lookup_role_key, hsend, hq,
                generate_response, hgen]
            rw [hch, Option.getD_some]
            exact ⟨h, List.prefix_refl _⟩

def inp_c10 : ScriptInput :=
  { apiKey := some "test-key"
    remote := fun p => if p = "Test" then GenResult.ok "pong" else GenResult.ok "Yes."
    chatHistory := some [("user", "a"), ("assistant", "b")]
    role := Role.software_engineer
    userInput := "hi"
    sendClicked := true }

/-- C10 witness: a concrete successful submit over an existing paired
history. -/
theorem claim_C10_witness :
    Paired (((run_main inp_c10).chatHistory).getD []) ∧
    (inp_c10.chatHistory.getD []) <+: ((run_main inp_c10).chatHistory).getD [] :=
  claim_C10 inp_c10 (Paired.pair "a" "b" [] Paired.nil)
